import Mathlib

/-!
# Verification of the spinoff actor core (`spinoff/actor/_actor.py`, `spinoff/actor/process.py`)

This file is a shallow embedding of the actor lifecycle and supervision
engine of the repository.  Python objects become Lean structures, mutation
becomes explicit state passing, and exceptions become `Except` results.
Message values (Python tuples, strings, exception objects, tracebacks,
actor references) are embedded as the inductive type `V`.

The cells modelled here are leaf cells (their `_children` list is empty, so
the child-propagation loops in `pause`/`resume`/`stop` are vacuous), except
for `ParentCell` which models a parent together with its list of child
cells.  The parent of a modelled cell is represented by the sink list
`parentMsgs` holding the messages the cell passed to `self.parent.send`;
the terminal `Deferred` `self.d` is represented by the counter `dCount` of
the times it was fired.
-/

namespace Spinoff

/-- Embedded Python values as they appear in actor messages: strings,
natural numbers, `None`, actor references (identified by a numeric id),
exception objects, traceback objects, and tuples. -/
inductive V : Type where
  | s    : String → V
  | n    : Nat → V
  | pynone : V
  | ref  : Nat → V
  | exc  : Nat → V
  | tb   : V
  | tup  : List V → V

/-- Exception values raised by user code inside an actor: a user exception
(`mock i` stands for an arbitrary user exception object), twisted's
`CancelledError`, and Python's `RuntimeError`. -/
inductive ExcV : Type where
  | mock : Nat → ExcV
  | cancelled : ExcV
  | runtimeErr : ExcV
deriving DecidableEq, Repr

/-- Exceptions that propagate to the caller of a cell operation:
the typed lifecycle errors of `_actor.py`, the `AttributeError` produced by
`None.send`, the `RuntimeError` for a generator-returning handler, the
`QueueUnderflow` of a second outstanding `get`, and the plain
`Exception("Actor not started")` raised by `stop` on a fresh cell. -/
inductive PyErr : Type where
  | actorNotRunning
  | actorAlreadyRunning
  | actorAlreadyStopped
  | attributeError
  | runtimeError
  | queueUnderflow
  | plainException
deriving DecidableEq, Repr

mutual

/-- Structural equality of embedded Python values (`==` on messages). -/
def veq : V → V → Bool
  | .s a, .s b => a == b
  | .n a, .n b => a == b
  | .pynone, .pynone => true
  | .ref a, .ref b => a == b
  | .exc a, .exc b => a == b
  | .tb, .tb => true
  | .tup as, .tup bs => veqList as bs
  | _, _ => false

/-- Pointwise `veq` on tuple components. -/
def veqList : List V → List V → Bool
  | [], [] => true
  | a :: as, b :: bs => veq a b && veqList as bs
  | _, _ => false

end

/-- Modelled from the spec: the pattern language of
`spinoff.util.pattern_matching`, whose source is not part of the
repository snapshot.  Per spec section 4.1 a pattern is one of `ANY`, a
type predicate, a literal, or a tuple of patterns. -/
inductive Pat : Type where
  | any : Pat
  | isTuple : Pat
  | lit : V → Pat
  | tup : List Pat → Pat

mutual

/-- Modelled from the spec: `match(pattern, value) → Option⟨bound⟩` of
`spinoff.util.pattern_matching` (missing from the snapshot).  Spec 4.1:
ANY matches anything with bound = value; a type predicate matches iff the
value has that type, bound = value; a literal matches iff the value equals
it, bound = value; a tuple matches iff the value is a tuple of the same
arity and each element matches pairwise, bound = tuple of bound elements.
The match is total and pure. -/
def pmatch : Pat → V → Option V
  | .any, v => some v
  | .isTuple, v => match v with
      | .tup vs => some (.tup vs)
      | _ => none
  | .lit l, v => if veq v l then some v else none
  | .tup ps, v => match v with
      | .tup vs => (pmatchList ps vs).map V.tup
      | _ => none

/-- Pairwise matching of a tuple pattern against tuple components. -/
def pmatchList : List Pat → List V → Option (List V)
  | [], [] => some []
  | p :: ps, v :: vs => match pmatch p v with
      | some b => (pmatchList ps vs).map (fun bs => b :: bs)
      | none => none
  | [], _ :: _ => none
  | _ :: _, [] => none

end

/-- Boolean form of `pmatch`, modelling Python `==` between a pattern and a
message (the pattern classes override `__eq__` to mean "matches"), as used
by `list.index` in `Process.get` and by `PickyDeferred.wants`. -/
def pmatches (p : Pat) (v : V) : Bool := (pmatch p v).isSome

/-- The four lifecycle states of `_actor.py` line 41:
`NOT_STARTED, RUNNING, PAUSED, STOPPED = range(4)`. -/
inductive AState : Type where
  | notStarted
  | running
  | paused
  | stopped
deriving DecidableEq, Repr

/-- Outcome of invoking a user-supplied stateless message handler on its
state and a message: a new state, a raised exception, or a returned
generator object (a programming error rejected by `BaseActor.send`). -/
inductive HandleRes (σ : Type) : Type where
  | ok : σ → HandleRes σ
  | raised : ExcV → HandleRes σ
  | genReturned : HandleRes σ

/-- The `('error', self, (exc, trace))` escalation tuple built at
`_actor.py` line 97 (`BaseActor.send`) and line 255 (`Actor.start`):
note it has three components, the third being the pair `(exc, trace)`. -/
def errMsg (cid : Nat) (e : ExcV) : V :=
  .tup [.s "error", .ref cid, .tup [.exc (match e with
    | .mock i => i
    | .cancelled => 1000000
    | .runtimeErr => 1000001), .tb]]

/-- The `('stopped', self)` termination tuple of `_actor.py` line 150. -/
def stoppedMsg (cid : Nat) : V := .tup [.s "stopped", .ref cid]

/-- State of a stateless-handler cell (`BaseActor` of `_actor.py`), for a
cell with no children (the child loops of `pause`/`resume`/`stop` are
vacuous).  `us` is the user handler's own state, `σ`; `hasParent` is false
exactly when `_parent is None` (as after a class-level `spawn`);
`parentMsgs` is the sink of messages passed to `self.parent.send`;
`dCount` counts the firings of the terminal Deferred `self.d`. -/
structure BaseActor (σ : Type) : Type where
  state : AState
  pending : List V
  us : σ
  hasParent : Bool
  cid : Nat
  parentMsgs : List V
  dCount : Nat

/-- `BaseActor.send` (`_actor.py` lines 92-107).  If RUNNING, invoke the
handler; a raised exception is escalated to the parent as
`('error', self, (e, trace))` — dereferencing `self.parent`, which is an
`AttributeError` when no parent is set; a generator return raises
`RuntimeError`.  If NOT_STARTED raise `ActorNotRunning`; if PAUSED buffer
into `_pending`; if STOPPED raise `ActorNotRunning`. -/
def BaseActor.send (handle : σ → V → HandleRes σ) (c : BaseActor σ) (m : V) :
    Except PyErr (BaseActor σ) :=
  match c.state with
  | .running =>
      match handle c.us m with
      | .ok us => .ok { c with us := us }
      | .raised e =>
          if c.hasParent then
            .ok { c with parentMsgs := c.parentMsgs ++ [errMsg c.cid e] }
          else
            .error .attributeError
      | .genReturned => .error .runtimeError
  | .notStarted => .error .actorNotRunning
  | .paused => .ok { c with pending := c.pending ++ [m] }
  | .stopped => .error .actorNotRunning

/-- The replay loop of `BaseActor.resume` (`_actor.py` lines 131-133):
`for pending_message in self._pending: self.send(pending_message)`. -/
def BaseActor.replay (handle : σ → V → HandleRes σ) :
    BaseActor σ → List V → Except PyErr (BaseActor σ)
  | c, [] => .ok c
  | c, m :: ms => do
      let c₁ ← BaseActor.send handle c m
      BaseActor.replay handle c₁ ms

/-- `BaseActor.resume` (`_actor.py` lines 120-134) for a cell with no
children: reject RUNNING (`ActorAlreadyRunning`) and STOPPED
(`ActorAlreadyStopped`), move to RUNNING, then replay `_pending` in order
through `send` and clear it. -/
def BaseActor.resume (handle : σ → V → HandleRes σ) (c : BaseActor σ) :
    Except PyErr (BaseActor σ) :=
  if c.state = .running then .error .actorAlreadyRunning
  else if c.state = .stopped then .error .actorAlreadyStopped
  else do
    let c₁ := { c with state := .running }
    let c₂ ← BaseActor.replay handle c₁ c₁.pending
    .ok { c₂ with pending := [] }

/-- `BaseActor.start` (`_actor.py` lines 89-90): `self.resume()`. -/
def BaseActor.start (handle : σ → V → HandleRes σ) (c : BaseActor σ) :
    Except PyErr (BaseActor σ) :=
  BaseActor.resume handle c

/-- The class-level path of `BaseActor.spawn` (`_actor.py` lines 61-71):
construct the cell and `start()` it, never assigning `_parent`. -/
def BaseActor.spawnCls (handle : σ → V → HandleRes σ) (us : σ) :
    Except PyErr (BaseActor σ) :=
  BaseActor.start handle
    { state := .notStarted, pending := [], us := us, hasParent := false,
      cid := 0, parentMsgs := [], dCount := 0 }

/-- Result of an external deferred: a value or a failure, as dispatched by
`isinstance(result, Failure)` in `_fire_current_d` and `Actor.resume`. -/
inductive DRes : Type where
  | val : V → DRes
  | fail : ExcV → DRes

/-- A delivery into the suspended body (the generator driven by
`inlineCallbacks`): either a matched message resolving a pending `get`
deferred (`d.callback(found)` in `Actor.handle`), or the result of an
external awaitable resuming the `yield` (callback/errback of the derived
deferred built in the driver loop).  The body's further execution after a
delivery is outside the modelled step. -/
inductive BEvent : Type where
  | msg : V → BEvent
  | ext : DRes → BEvent

/-- What the body's generator does when `close()` injects `GeneratorExit`
(`self._gen.close()` in `Actor._on_stop`): it unwinds cleanly, raises an
exception from a cleanup block, or suspends again — in which case Python's
`close` raises `RuntimeError("generator ignored GeneratorExit")`. -/
inductive GenClose : Type where
  | exitsCleanly
  | raisesOnClose : ExcV → GenClose
  | suspendsAgain
deriving DecidableEq, Repr

/-- Python `generator.close()` as seen by `Actor._on_stop`: `none` when the
generator unwinds cleanly, `some e` when an exception `e` escapes
(a cleanup failure, or the `RuntimeError` for refusing to exit). -/
def GenClose.closeExc : GenClose → Option ExcV
  | .exitsCleanly => none
  | .raisesOnClose e => some e
  | .suspendsAgain => some .runtimeErr

/-- State of a procedure cell (`Actor` of `_actor.py`) with no children and
with a parent (as produced by `_spawn_child`); the parent is modelled as
the `parentMsgs` sink.  Fields mirror the Python attributes: `pending` is
`BaseActor._pending`, `inbox` is `Actor._inbox`, `waiting` is `_waiting`
(`some f` when a `get` with filter `f` is outstanding, the inner `none`
being an unfiltered `get`), `onHold` is `_on_hold_d is not None`,
`cancelling` is `_cancelling_hold_d`, `currentD` is `_current_d is not
None`, `pausedResult` is `_paused_result`, `gen` is `_gen` together with
its behaviour under `close()`, `dCount` counts firings of `self.d`,
`cancelCount` counts invocations of `self._on_hold_d.cancel()`, and
`warns` counts emitted warnings. -/
structure Actor : Type where
  state : AState
  pending : List V
  inbox : List V
  waiting : Option (Option Pat)
  onHold : Bool
  cancelling : Bool
  currentD : Bool
  pausedResult : Option DRes
  gen : Option GenClose
  cid : Nat
  parentMsgs : List V
  dCount : Nat
  cancelCount : Nat
  warns : Nat

/-- `BaseActor.exit` (`_actor.py` lines 152-154): `self.parent.send(msg)`
followed by `self.d.callback(None)`. -/
def Actor.exit (c : Actor) (msg : V) : Actor :=
  { c with parentMsgs := c.parentMsgs ++ [msg], dCount := c.dCount + 1 }

/-- `Actor.handle` (`_actor.py` lines 276-290): with a pending `get`, an
unfiltered waiter takes the whole message and a filtered waiter takes the
bound values of the first match, resolving the waiter's deferred (a body
delivery); otherwise the message is appended to `_inbox`. -/
def Actor.handle (c : Actor) (m : V) : Actor × Option BEvent :=
  match c.waiting with
  | some w =>
      match w with
      | none => ({ c with waiting := none }, some (.msg m))
      | some p =>
          match pmatch p m with
          | some values => ({ c with waiting := none }, some (.msg values))
          | none => ({ c with inbox := c.inbox ++ [m] }, none)
  | none => ({ c with inbox := c.inbox ++ [m] }, none)

/-- `BaseActor.send` specialised to a procedure cell (`Actor.handle` never
raises and never returns a generator): dispatch when RUNNING, buffer when
PAUSED, raise `ActorNotRunning` when NOT_STARTED or STOPPED. -/
def Actor.send (c : Actor) (m : V) : Except PyErr (Actor × List BEvent) :=
  match c.state with
  | .running =>
      let (c₁, ev) := Actor.handle c m
      .ok (c₁, ev.toList)
  | .notStarted => .error .actorNotRunning
  | .paused => .ok ({ c with pending := c.pending ++ [m] }, [])
  | .stopped => .error .actorNotRunning

/-- The replay loop of `BaseActor.resume` for a procedure cell, collecting
the body deliveries produced along the way. -/
def Actor.replay : Actor → List V → Except PyErr (Actor × List BEvent)
  | c, [] => .ok (c, [])
  | c, m :: ms => do
      let (c₁, e₁) ← Actor.send c m
      let (c₂, e₂) ← Actor.replay c₁ ms
      .ok (c₂, e₁ ++ e₂)

/-- `BaseActor.resume` (`_actor.py` lines 120-134) for a leaf procedure
cell: reject RUNNING/STOPPED, become RUNNING, replay `_pending` in arrival
order and clear it. -/
def Actor.resumeBase (c : Actor) : Except PyErr (Actor × List BEvent) :=
  if c.state = .running then .error .actorAlreadyRunning
  else if c.state = .stopped then .error .actorAlreadyStopped
  else do
    let c₁ := { c with state := .running }
    let (c₂, evs) ← Actor.replay c₁ c₁.pending
    .ok ({ c₂ with pending := [] }, evs)

/-- `Actor.resume` (`_actor.py` lines 313-321): the base resume, then if a
cached external result is pending (`_current_d`), deliver it into the body
(errback for a `Failure`, callback otherwise) and clear the cache. -/
def Actor.resume (c : Actor) : Except PyErr (Actor × List BEvent) := do
  let (c₁, evs) ← Actor.resumeBase c
  if c₁.currentD then
    let r := match c₁.pausedResult with
      | some r => r
      | none => .val .pynone
    .ok ({ c₁ with currentD := false, pausedResult := none }, evs ++ [.ext r])
  else
    .ok (c₁, evs)

/-- `Actor._fire_current_d` (`_actor.py` lines 265-274): the external
awaitable resolved; clear `_on_hold_d`; if RUNNING and not cancelling,
deliver into the body at once, else cache the result for the next resume. -/
def Actor.fireCurrentD (c : Actor) (r : DRes) : Actor × List BEvent :=
  let c₁ := { c with onHold := false }
  if c₁.state = .running ∧ c₁.cancelling = false then
    (c₁, [.ext r])
  else
    ({ c₁ with currentD := true, pausedResult := some r }, [])

/-- `Actor._on_stop` (`_actor.py` lines 323-346).  If an external await is
on hold, cancel it under `_cancelling_hold_d` — the synthesized
`CancelledError` arrives through `_fire_current_d`, is cached, asserted to
be a `CancelledError` and discarded (the whole block swallows exceptions).
Then close the generator; an exception escaping `close` is reported via
`exit(('error', self, (e, trace)))`.  Finally warn if a paused cell still
holds a pending failure. -/
def Actor.onStop (c : Actor) : Actor × List BEvent :=
  let c₁ :=
    if c.onHold then
      let ca := { c with cancelling := true, cancelCount := c.cancelCount + 1 }
      let (cb, _) := Actor.fireCurrentD ca (.fail .cancelled)
      let cc := { cb with cancelling := false }
      match cc.pausedResult with
      | some (.fail .cancelled) => { cc with pausedResult := none }
      | _ => cc
    else c
  let c₂ :=
    match c₁.gen with
    | some g =>
        match g.closeExc with
        | none => c₁
        | some e => Actor.exit c₁ (errMsg c₁.cid e)
    | none => c₁
  let c₃ :=
    match c₂.state, c₂.pausedResult with
    | .paused, some (.fail _) => { c₂ with warns := c₂.warns + 1 }
    | _, _ => c₂
  (c₃, [])

/-- `BaseActor.stop` (`_actor.py` lines 136-150) for a leaf cell: reject
NOT_STARTED (plain `Exception`) and STOPPED (`ActorAlreadyStopped`), pause
if RUNNING, become STOPPED, and unless `silent` or `self.d` already fired,
`exit(('stopped', self))`. -/
def Actor.stopBase (c : Actor) (silent : Bool) : Except PyErr Actor :=
  if c.state = .notStarted then .error .plainException
  else if c.state = .stopped then .error .actorAlreadyStopped
  else
    let c₁ := if c.state = .running then { c with state := .paused } else c
    let c₂ := { c₁ with state := .stopped }
    if silent = false ∧ c₂.dCount = 0 then
      .ok (Actor.exit c₂ (stoppedMsg c₂.cid))
    else
      .ok c₂

/-- `Actor.stop` (`_actor.py` lines 258-260): run `_on_stop`, then the base
`stop` — note the source calls `super(Actor, self).stop()` WITHOUT
forwarding `silent`, so the base stop always runs non-silently. -/
def Actor.stop (c : Actor) (silent : Bool) : Except PyErr (Actor × List BEvent) := do
  let _ := silent
  let (c₁, evs) := Actor.onStop c
  let c₂ ← Actor.stopBase c₁ false
  .ok (c₂, evs)

/-- The `finally_` callback installed by `Actor.start` (`_actor.py` lines
252-256) on the deferred of the driven body: when the body ended in a
failure, `exit(('error', self, (exc, trace)))`; in all cases `self.stop()`
(with the default `silent=False`). -/
def Actor.finallyCb (c : Actor) (result : Option ExcV) :
    Except PyErr (Actor × List BEvent) :=
  let c₁ := match result with
    | some e => Actor.exit c (errMsg c.cid e)
    | none => c
  Actor.stop c₁ false

/-- `Actor.get` (`_actor.py` lines 296-311).  With a non-empty inbox, an
unfiltered get pops the head; a filtered get removes and returns the bound
values of the first matching message.  Otherwise (also when a filter finds
no match) a waiter is registered — after raising `QueueUnderflow` if one
already exists. -/
inductive GetRes : Type where
  | immediate : V → GetRes
  | pending : GetRes

/-- The body of `Actor.get`; see `GetRes`. -/
def Actor.get (c : Actor) (filter : Option Pat) : Except PyErr (Actor × GetRes) :=
  match c.inbox with
  | v :: rest =>
      match filter with
      | none => .ok ({ c with inbox := rest }, .immediate v)
      | some p =>
          match (v :: rest).findIdx? (fun m => (pmatch p m).isSome) with
          | some ix =>
              let q := v :: rest
              .ok ({ c with inbox := q.eraseIdx ix },
                   .immediate ((pmatch p (q.getD ix .pynone)).getD .pynone))
          | none =>
              if c.waiting.isSome then .error .queueUnderflow
              else .ok ({ c with waiting := some filter }, .pending)
  | [] =>
      if c.waiting.isSome then .error .queueUnderflow
      else .ok ({ c with waiting := some filter }, .pending)

/-- Computation rule for `Except` bind on a success, used to unfold the
`do` blocks of the embedded operations. -/
@[simp] theorem exceptBind_ok {ε α β : Type} (a : α) (f : α → Except ε β) :
    (Except.ok a : Except ε α) >>= f = f a := rfl

/-- Computation rule for `Except` bind on an error. -/
@[simp] theorem exceptBind_err {ε α β : Type} (e : ε) (f : α → Except ε β) :
    (Except.error e : Except ε α) >>= f = .error e := rfl

/-- A canonical stateless handler that records the messages it processed,
in order, making the dispatch order of `send`/`resume` observable. -/
def recorder : List V → V → HandleRes (List V) := fun s m => .ok (s ++ [m])

/-- Replaying messages through the recording handler on a RUNNING cell
appends exactly those messages, in order, to the processed list. -/
theorem BaseActor.replay_recorder (ms : List V) (c : BaseActor (List V))
    (h : c.state = .running) :
    BaseActor.replay recorder c ms = .ok { c with us := c.us ++ ms } := by
  induction ms generalizing c with
  | nil => simp [BaseActor.replay]
  | cons m ms ih =>
      simp only [BaseActor.replay, BaseActor.send, h, recorder, exceptBind_ok]
      rw [ih { c with state := .running, us := c.us ++ [m] } (by simp)]
      simp [h]

/-- C6: `send` raises `ActorNotRunning` on a NOT_STARTED and on a STOPPED
cell (never silently dropping the message); on a PAUSED cell it buffers the
message at the end of `_pending`; and `resume` replays every buffered
message, in arrival order, through the handler before clearing the buffer
(shown with the recording handler, which makes the processing order
observable). -/
theorem claim_C6_send_lifecycle
    (σ : Type) (handle : σ → V → HandleRes σ) (m : V)
    (c₁ c₂ c₃ : BaseActor σ) (c₄ : BaseActor (List V))
    (h₁ : c₁.state = .notStarted) (h₂ : c₂.state = .stopped)
    (h₃ : c₃.state = .paused) (h₄ : c₄.state = .paused) :
    BaseActor.send handle c₁ m = .error .actorNotRunning ∧
    BaseActor.send handle c₂ m = .error .actorNotRunning ∧
    BaseActor.send handle c₃ m = .ok { c₃ with pending := c₃.pending ++ [m] } ∧
    BaseActor.resume recorder c₄ =
      .ok { c₄ with state := .running, us := c₄.us ++ c₄.pending, pending := [] } := by
  refine ⟨?_, ?_, ?_, ?_⟩
  · simp [BaseActor.send, h₁]
  · simp [BaseActor.send, h₂]
  · simp [BaseActor.send, h₃]
  · simp only [BaseActor.resume, h₄]
    rw [if_neg (by simp), if_neg (by simp),
      BaseActor.replay_recorder _ _ (by simp)]
    simp

/-- Witness for C6: a concrete not-started, stopped and paused cell, and a
paused recorder cell with two buffered messages replayed in order. -/
theorem claim_C6_send_lifecycle_witness :
    BaseActor.send (σ := Unit) (fun s _ => .ok s)
      { state := .notStarted, pending := [], us := (), hasParent := true,
        cid := 0, parentMsgs := [], dCount := 0 } (.n 5) = .error .actorNotRunning ∧
    BaseActor.send (σ := Unit) (fun s _ => .ok s)
      { state := .stopped, pending := [], us := (), hasParent := true,
        cid := 0, parentMsgs := [], dCount := 0 } (.n 5) = .error .actorNotRunning ∧
    BaseActor.send (σ := Unit) (fun s _ => .ok s)
      { state := .paused, pending := [.n 1], us := (), hasParent := true,
        cid := 0, parentMsgs := [], dCount := 0 } (.n 5) =
      .ok { state := .paused, pending := [.n 1, .n 5], us := (), hasParent := true,
            cid := 0, parentMsgs := [], dCount := 0 } ∧
    BaseActor.resume recorder
      { state := .paused, pending := [.n 1, .n 2], us := [], hasParent := true,
        cid := 0, parentMsgs := [], dCount := 0 } =
      .ok { state := .running, pending := [], us := [.n 1, .n 2], hasParent := true,
            cid := 0, parentMsgs := [], dCount := 0 } :=
  claim_C6_send_lifecycle Unit (fun s _ => .ok s) (.n 5) _ _ _ _ rfl rfl rfl rfl

/-- C10: on a RUNNING stateless cell whose parent was never set (as after a
class-level `spawn`, which starts the cell without assigning `_parent`),
a handler exception makes `send` itself raise `AttributeError`, because the
escalation path dereferences `self.parent` unconditionally. -/
theorem claim_C10_unparented_escalation_raises
    (σ : Type) (handle : σ → V → HandleRes σ) (c : BaseActor σ) (m : V) (e : ExcV)
    (us0 : σ)
    (hrun : c.state = .running) (hpar : c.hasParent = false)
    (hraise : handle c.us m = .raised e) :
    BaseActor.send handle c m = .error .attributeError ∧
    BaseActor.spawnCls handle us0 =
      .ok { state := .running, pending := [], us := us0, hasParent := false,
            cid := 0, parentMsgs := [], dCount := 0 } := by
  constructor
  · simp [BaseActor.send, hrun, hraise, hpar]
  · simp [BaseActor.spawnCls, BaseActor.start, BaseActor.resume, BaseActor.replay,
      Except.bind]

/-- Witness for C10: a concrete running, parentless recorder-free cell whose
handler raises; `send` raises `AttributeError`. -/
theorem claim_C10_unparented_escalation_raises_witness :
    BaseActor.send (σ := Unit) (fun _ _ => .raised (.mock 7))
      { state := .running, pending := [], us := (), hasParent := false,
        cid := 0, parentMsgs := [], dCount := 0 } (.n 9) = .error .attributeError ∧
    BaseActor.spawnCls (σ := Unit) (fun _ _ => .raised (.mock 7)) () =
      .ok { state := .running, pending := [], us := (), hasParent := false,
            cid := 0, parentMsgs := [], dCount := 0 } :=
  claim_C10_unparented_escalation_raises Unit (fun _ _ => .raised (.mock 7))
    _ (.n 9) (.mock 7) () rfl rfl rfl

/-- Replaying messages on a RUNNING procedure cell with no pending `get`
waiter appends them to the inbox, in order, and delivers nothing into the
body. -/
theorem Actor.replay_noWaiting (ms : List V) (c : Actor)
    (h : c.state = .running) (hw : c.waiting = none) :
    Actor.replay c ms = .ok ({ c with inbox := c.inbox ++ ms }, []) := by
  induction ms generalizing c with
  | nil => simp [Actor.replay]
  | cons m ms ih =>
      simp only [Actor.replay, Actor.send, h, Actor.handle, hw, Option.toList,
        exceptBind_ok]
      rw [ih { c with state := .running, inbox := c.inbox ++ [m], waiting := none }
        (by simp) (by simp)]
      simp [h, hw]

/-- C1: a PAUSED procedure cell whose awaited external result has already
arrived (the result is cached in `_paused_result` with `_current_d` set;
the body is suspended on the external await, so no `get` waiter exists)
delivers nothing into the body while it stays PAUSED — a `send` only
buffers, and even a further external completion only caches — and on
`resume()` the single body delivery is the cached external result: the
messages buffered during the pause are appended to the inbox, in arrival
order, and reach the body only through later `get` calls. -/
theorem claim_C1_paused_caches_until_resume (c : Actor) (r r' : DRes) (m : V)
    (hp : c.state = .paused) (hc : c.currentD = true)
    (hr : c.pausedResult = some r) (hw : c.waiting = none) :
    Actor.send c m = .ok ({ c with pending := c.pending ++ [m] }, []) ∧
    (Actor.fireCurrentD c r').2 = [] ∧
    Actor.resume c =
      .ok ({ c with
             state := .running, pending := [], inbox := c.inbox ++ c.pending,
             currentD := false, pausedResult := none }, [.ext r]) := by
  refine ⟨?_, ?_, ?_⟩
  · simp [Actor.send, hp]
  · simp [Actor.fireCurrentD, hp]
  · simp only [Actor.resume, Actor.resumeBase, hp]
    rw [if_neg (by simp), if_neg (by simp),
      Actor.replay_noWaiting _ _ (by simp) (by simp [hw])]
    simp [hc, hr]

/-- Witness for C1: a concrete paused cell with a cached value `n 42` and
one already-buffered message; a further send buffers, and resume delivers
the cached value as the only body event. -/
theorem claim_C1_paused_caches_until_resume_witness :
    Actor.send
      { state := .paused, pending := [.n 1], inbox := [], waiting := none,
        onHold := false, cancelling := false, currentD := true,
        pausedResult := some (.val (.n 42)), gen := some .exitsCleanly, cid := 0,
        parentMsgs := [], dCount := 0, cancelCount := 0, warns := 0 } (.n 2) =
      .ok ({ state := .paused, pending := [.n 1, .n 2], inbox := [], waiting := none,
             onHold := false, cancelling := false, currentD := true,
             pausedResult := some (.val (.n 42)), gen := some .exitsCleanly, cid := 0,
             parentMsgs := [], dCount := 0, cancelCount := 0, warns := 0 }, []) ∧
    (Actor.fireCurrentD
      { state := .paused, pending := [.n 1], inbox := [], waiting := none,
        onHold := false, cancelling := false, currentD := true,
        pausedResult := some (.val (.n 42)), gen := some .exitsCleanly, cid := 0,
        parentMsgs := [], dCount := 0, cancelCount := 0, warns := 0 }
      (.fail (.mock 0))).2 = [] ∧
    Actor.resume
      { state := .paused, pending := [.n 1], inbox := [], waiting := none,
        onHold := false, cancelling := false, currentD := true,
        pausedResult := some (.val (.n 42)), gen := some .exitsCleanly, cid := 0,
        parentMsgs := [], dCount := 0, cancelCount := 0, warns := 0 } =
      .ok ({ state := .running, pending := [], inbox := [.n 1], waiting := none,
             onHold := false, cancelling := false, currentD := false,
             pausedResult := none, gen := some .exitsCleanly, cid := 0,
             parentMsgs := [], dCount := 0, cancelCount := 0, warns := 0 },
           [.ext (.val (.n 42))]) :=
  claim_C1_paused_caches_until_resume _ (.val (.n 42)) (.fail (.mock 0)) (.n 2)
    rfl rfl rfl rfl

/-- C4: stopping a running procedure cell suspended on an external
awaitable invokes the awaitable's cancellation (under `_cancelling_hold_d`),
swallows the synthesized `CancelledError` — it is cached by
`_fire_current_d`, asserted, and discarded, so it is neither delivered into
the body (no body event) nor propagated to the caller of `stop` (the result
is `ok`) — unwinds the body, and reports the normal `('stopped', self)` to
the parent. -/
theorem claim_C4_stop_cancels_external (c : Actor)
    (hrun : c.state = .running) (hh : c.onHold = true) (hcx : c.cancelling = false)
    (hg : c.gen = some .exitsCleanly) (hd : c.dCount = 0) :
    Actor.stop c false =
      .ok ({ c with
             state := .stopped, onHold := false, currentD := true,
             pausedResult := none, cancelCount := c.cancelCount + 1,
             dCount := 1, parentMsgs := c.parentMsgs ++ [stoppedMsg c.cid] }, []) := by
  simp only [Actor.stop, Actor.onStop, Actor.fireCurrentD, hh, if_true]
  simp only [hrun, hcx]
  simp only [Actor.stopBase, Actor.exit, hg, GenClose.closeExc]
  simp [hd, hrun, stoppedMsg]

/-- Witness for C4: a concrete running cell on hold; stop cancels, swallows
the cancellation, and emits `('stopped', self)`. -/
theorem claim_C4_stop_cancels_external_witness :
    Actor.stop
      { state := .running, pending := [], inbox := [], waiting := none,
        onHold := true, cancelling := false, currentD := false,
        pausedResult := none, gen := some .exitsCleanly, cid := 2,
        parentMsgs := [], dCount := 0, cancelCount := 0, warns := 0 } false =
      .ok ({ state := .stopped, pending := [], inbox := [], waiting := none,
             onHold := false, cancelling := false, currentD := true,
             pausedResult := none, gen := some .exitsCleanly, cid := 2,
             parentMsgs := [stoppedMsg 2], dCount := 1, cancelCount := 1,
             warns := 0 }, []) :=
  claim_C4_stop_cancels_external _ rfl rfl rfl rfl rfl

/-- C8: the terminal deferred `self.d` fires exactly once on each
termination path of a procedure cell that has not yet reported: normal
body completion (`finally_` with a non-failure), body failure (`finally_`
reports `error` via `exit`, and the `stop` it then performs is guarded by
`self.d.called`), an explicit `stop()` of a running suspended cell, and a
`stop()` whose cleanup raises (the `exit` of `_on_stop` fires `d`, and the
base `stop` is again guarded by `self.d.called`). -/
theorem claim_C8_terminal_signal_once (c₁ c₂ c₃ c₄ : Actor) (e e' : ExcV)
    (h₁s : c₁.state = .running) (h₁g : c₁.gen = some .exitsCleanly)
    (h₁h : c₁.onHold = false) (h₁d : c₁.dCount = 0)
    (h₂s : c₂.state = .running) (h₂g : c₂.gen = some .exitsCleanly)
    (h₂h : c₂.onHold = false) (h₂d : c₂.dCount = 0)
    (h₃s : c₃.state = .running) (h₃g : c₃.gen = some .exitsCleanly)
    (h₃h : c₃.onHold = true) (h₃c : c₃.cancelling = false) (h₃d : c₃.dCount = 0)
    (h₄s : c₄.state = .running) (h₄g : c₄.gen = some (.raisesOnClose e'))
    (h₄h : c₄.onHold = false) (h₄d : c₄.dCount = 0) :
    (Actor.finallyCb c₁ none).map (fun p => p.1.dCount) = .ok 1 ∧
    (Actor.finallyCb c₂ (some e)).map (fun p => p.1.dCount) = .ok 1 ∧
    (Actor.stop c₃ false).map (fun p => p.1.dCount) = .ok 1 ∧
    (Actor.stop c₄ false).map (fun p => p.1.dCount) = .ok 1 := by
  refine ⟨?_, ?_, ?_, ?_⟩
  · simp only [Actor.finallyCb, Actor.stop, Actor.onStop, h₁h, if_false,
      Bool.false_eq_true, h₁g, GenClose.closeExc]
    simp only [h₁s]
    simp [Actor.stopBase, Actor.exit, h₁s, h₁d, Except.map]
  · simp only [Actor.finallyCb, Actor.exit, Actor.stop, Actor.onStop, h₂h, if_false,
      Bool.false_eq_true, h₂g, GenClose.closeExc]
    simp only [h₂s]
    simp [Actor.stopBase, Actor.exit, h₂s, h₂d, Except.map]
  · simp only [Actor.stop, Actor.onStop, Actor.fireCurrentD, h₃h, if_true]
    simp only [h₃s, h₃c]
    simp [Actor.stopBase, Actor.exit, h₃s, h₃g, GenClose.closeExc, h₃d, Except.map]
  · simp only [Actor.stop, Actor.onStop, h₄h, if_false, Bool.false_eq_true,
      h₄g, GenClose.closeExc, Actor.exit]
    simp only [h₄s]
    simp [Actor.stopBase, Actor.exit, h₄s, h₄d, Except.map]

/-- Witness for C8: four concrete cells, one per termination path, each
firing the terminal signal exactly once. -/
theorem claim_C8_terminal_signal_once_witness :
    (Actor.finallyCb
      { state := .running, pending := [], inbox := [], waiting := none,
        onHold := false, cancelling := false, currentD := false,
        pausedResult := none, gen := some .exitsCleanly, cid := 0,
        parentMsgs := [], dCount := 0, cancelCount := 0, warns := 0 }
      none).map (fun p => p.1.dCount) = .ok 1 ∧
    (Actor.finallyCb
      { state := .running, pending := [], inbox := [], waiting := none,
        onHold := false, cancelling := false, currentD := false,
        pausedResult := none, gen := some .exitsCleanly, cid := 0,
        parentMsgs := [], dCount := 0, cancelCount := 0, warns := 0 }
      (some (.mock 5))).map (fun p => p.1.dCount) = .ok 1 ∧
    (Actor.stop
      { state := .running, pending := [], inbox := [], waiting := none,
        onHold := true, cancelling := false, currentD := false,
        pausedResult := none, gen := some .exitsCleanly, cid := 0,
        parentMsgs := [], dCount := 0, cancelCount := 0, warns := 0 }
      false).map (fun p => p.1.dCount) = .ok 1 ∧
    (Actor.stop
      { state := .running, pending := [], inbox := [], waiting := none,
        onHold := false, cancelling := false, currentD := false,
        pausedResult := none, gen := some (.raisesOnClose (.mock 6)), cid := 0,
        parentMsgs := [], dCount := 0, cancelCount := 0, warns := 0 }
      false).map (fun p => p.1.dCount) = .ok 1 :=
  claim_C8_terminal_signal_once _ _ _ _ (.mock 5) (.mock 6)
    rfl rfl rfl rfl rfl rfl rfl rfl rfl rfl rfl rfl rfl rfl rfl rfl rfl

/-- The concrete failing input of C2: a spawned procedure cell whose body
raised a user exception while running (as in `actor_test.test_failure`). -/
def failedChild : Actor :=
  { state := .running, pending := [], inbox := [], waiting := none,
    onHold := false, cancelling := false, currentD := false,
    pausedResult := none, gen := some .exitsCleanly, cid := 3,
    parentMsgs := [], dCount := 0, cancelCount := 0, warns := 0 }

/-- C2 (code divergence): when a spawned child's body raises `E` while
running, the message the parent actually receives is the THREE-tuple
`('error', child, (E, trace))` — `_actor.py` never appends the
`during_startup` boolean that the claim (and the repository's own tests,
`actor_test.test_failure` and `test_spawn_child_actor`, which expect
`('error', child, (exc, trace), False)`) require as the fourth element. -/
theorem claim_C2_error_tuple_lacks_flag :
    (Actor.finallyCb failedChild (some (.mock 5))).map (fun p => p.1.parentMsgs) =
      .ok [.tup [.s "error", .ref 3, .tup [.exc 5, .tb]]] := by
  rfl

/-- The concrete failing input of C3, first shape: a running cell whose
body raises a user exception while being unwound
(`actor_test.test_failure_while_stopping`). -/
def cleanupRaises : Actor :=
  { state := .running, pending := [], inbox := [], waiting := none,
    onHold := true, cancelling := false, currentD := false,
    pausedResult := none, gen := some (.raisesOnClose (.mock 9)), cid := 4,
    parentMsgs := [], dCount := 0, cancelCount := 0, warns := 0 }

/-- The concrete failing input of C3, second shape: a running cell whose
body refuses to exit (suspends again during `close`), making `close` raise
`RuntimeError` (`actor_test.test_actor_refuses_to_stop`). -/
def refusesToStop : Actor :=
  { state := .running, pending := [], inbox := [], waiting := none,
    onHold := true, cancelling := false, currentD := false,
    pausedResult := none, gen := some .suspendsAgain, cid := 4,
    parentMsgs := [], dCount := 0, cancelCount := 0, warns := 0 }

/-- C3 (code divergence): when a non-silent `stop()` completes abnormally —
the body raised during cleanup, or refused to exit after cancellation — the
only message sent to the parent is the `('error', self, (exc, trace))`
tuple emitted by `Actor._on_stop`; no `('stopped', child, 'unclean',
reason)` message exists anywhere in `_actor.py`, although the claim, the
spec and the repository's own tests (`test_failure_while_stopping`,
`test_actor_refuses_to_stop`) expect the `'stopped'/'unclean'` shape. -/
theorem claim_C3_unclean_reported_as_error :
    (Actor.stop cleanupRaises false).map (fun p => p.1.parentMsgs) =
      .ok [.tup [.s "error", .ref 4, .tup [.exc 9, .tb]]] ∧
    (Actor.stop refusesToStop false).map (fun p => p.1.parentMsgs) =
      .ok [.tup [.s "error", .ref 4, .tup [.exc 1000001, .tb]]] := by
  exact ⟨rfl, rfl⟩

/-- Delivering a run of non-matching messages followed by a matching one to
a RUNNING cell with a filtered waiter: the non-matching prefix lands in the
inbox in order, the first match resolves the waiter with its bound values,
and the remaining messages land in the inbox after the prefix. -/
theorem Actor.replay_waiting_filtered (pre : List V) (m : V) (post : List V)
    (p : Pat) (b : V) (c : Actor)
    (h : c.state = .running) (hw : c.waiting = some (some p))
    (hpre : ∀ x ∈ pre, pmatch p x = none) (hm : pmatch p m = some b) :
    Actor.replay c (pre ++ m :: post) =
      .ok ({ c with waiting := none, inbox := c.inbox ++ (pre ++ post) },
           [.msg b]) := by
  induction pre generalizing c with
  | nil =>
      simp only [List.nil_append, Actor.replay, Actor.send, h, Actor.handle, hw,
        hm, Option.toList, exceptBind_ok]
      rw [Actor.replay_noWaiting post { c with state := .running, waiting := none }
        (by simp) (by simp)]
      simp [h]
  | cons x pre ih =>
      have hx : pmatch p x = none := hpre x (by simp)
      rw [List.cons_append]
      simp only [Actor.replay, Actor.send, h, Actor.handle, hw,
        hx, Option.toList, exceptBind_ok]
      rw [ih { c with
               state := .running, waiting := some (some p),
               inbox := c.inbox ++ [x] }
          (by simp) (by simp) (fun y hy => hpre y (List.mem_cons_of_mem x hy))]
      simp [h, hw]

/-- C5: a body that calls `get(p)` on an empty inbox suspends on a waiter;
when messages `m₁, pre…, m, post…` then arrive with `m` the first to
satisfy `p`, the single body delivery is the value bound from `m`; the
non-matching earlier messages remain in the inbox in arrival order (the
later ones follow them); and a subsequent unfiltered `get` yields `m₁`. -/
theorem claim_C5_selective_receive (c : Actor) (p : Pat) (b m m₁ : V)
    (pre post : List V)
    (hs : c.state = .running) (hw : c.waiting = none) (hi : c.inbox = [])
    (hpre : ∀ x ∈ m₁ :: pre, pmatch p x = none) (hm : pmatch p m = some b) :
    Actor.get c (some p) = .ok ({ c with waiting := some (some p) }, .pending) ∧
    Actor.replay { c with waiting := some (some p) } ((m₁ :: pre) ++ m :: post) =
      .ok ({ c with waiting := none, inbox := (m₁ :: pre) ++ post }, [.msg b]) ∧
    Actor.get { c with waiting := none, inbox := (m₁ :: pre) ++ post } none =
      .ok ({ c with waiting := none, inbox := pre ++ post }, .immediate m₁) := by
  refine ⟨?_, ?_, ?_⟩
  · simp only [Actor.get, hi, hw]
    rfl
  · rw [Actor.replay_waiting_filtered (m₁ :: pre) m post p b
      { c with waiting := some (some p) } (by simp [hs]) (by simp) hpre hm]
    simp [hi]
  · simp [Actor.get]

/-- Witness for C5: the spec's own scenario — waiting on `('baz', ANY)`,
receiving `('foo', 1)` then `('baz', 2)`: the body receives the bound of
`('baz', 2)`, `('foo', 1)` stays queued, and an unfiltered get pops it. -/
theorem claim_C5_selective_receive_witness :
    Actor.get
      { state := .running, pending := [], inbox := [], waiting := none,
        onHold := false, cancelling := false, currentD := false,
        pausedResult := none, gen := some .exitsCleanly, cid := 0,
        parentMsgs := [], dCount := 0, cancelCount := 0, warns := 0 }
      (some (.tup [.lit (.s "baz"), .any])) =
      .ok ({ state := .running, pending := [], inbox := [],
             waiting := some (some (.tup [.lit (.s "baz"), .any])),
             onHold := false, cancelling := false, currentD := false,
             pausedResult := none, gen := some .exitsCleanly, cid := 0,
             parentMsgs := [], dCount := 0, cancelCount := 0, warns := 0 },
           .pending) ∧
    Actor.replay
      { state := .running, pending := [], inbox := [],
        waiting := some (some (.tup [.lit (.s "baz"), .any])),
        onHold := false, cancelling := false, currentD := false,
        pausedResult := none, gen := some .exitsCleanly, cid := 0,
        parentMsgs := [], dCount := 0, cancelCount := 0, warns := 0 }
      ([.tup [.s "foo", .n 1]] ++ .tup [.s "baz", .n 2] :: []) =
      .ok ({ state := .running, pending := [], inbox := [.tup [.s "foo", .n 1]],
             waiting := none, onHold := false, cancelling := false,
             currentD := false, pausedResult := none, gen := some .exitsCleanly,
             cid := 0, parentMsgs := [], dCount := 0, cancelCount := 0,
             warns := 0 },
           [.msg (.tup [.s "baz", .n 2])]) ∧
    Actor.get
      { state := .running, pending := [], inbox := [.tup [.s "foo", .n 1]],
        waiting := none, onHold := false, cancelling := false,
        currentD := false, pausedResult := none, gen := some .exitsCleanly,
        cid := 0, parentMsgs := [], dCount := 0, cancelCount := 0, warns := 0 }
      none =
      .ok ({ state := .running, pending := [], inbox := [], waiting := none,
             onHold := false, cancelling := false, currentD := false,
             pausedResult := none, gen := some .exitsCleanly, cid := 0,
             parentMsgs := [], dCount := 0, cancelCount := 0, warns := 0 },
           .immediate (.tup [.s "foo", .n 1])) :=
  claim_C5_selective_receive _ (.tup [.lit (.s "baz"), .any])
    (.tup [.s "baz", .n 2]) (.tup [.s "baz", .n 2]) (.tup [.s "foo", .n 1]) [] []
    rfl rfl rfl
    (by intro x hx
        simp only [List.mem_singleton] at hx
        subst hx
        rfl)
    rfl

/-- A parent cell (a `BaseActor`-style cell) together with its `_children`
list of spawned procedure cells, as built by `_spawn_child` (`_actor.py`
lines 75-87): each child holds a back-reference to the parent (modelled by
routing the child's emitted messages into the parent), and
`child.d.addBoth(lambda _: self._children.remove(child))` removes the
child from the list the moment its terminal deferred fires. -/
structure ParentCell : Type where
  state : AState
  pending : List V
  children : List Actor
  cid : Nat
  parentMsgs : List V
  dCount : Nat

/-- `BaseActor.pause` (`_actor.py` lines 112-118) for the parent: move to
PAUSED and pause each RUNNING child (the children are leaf cells, so their
own child loop is vacuous). -/
def ParentCell.pause (p : ParentCell) : Except PyErr ParentCell :=
  if p.state = .running then
    .ok { p with
          state := .paused,
          children := p.children.map (fun ch =>
            if ch.state = .running then { ch with state := .paused } else ch) }
  else .error .actorNotRunning

/-- The `for child in self._children: child.stop(silent=True)` loop of
`BaseActor.stop` (`_actor.py` lines 144-145), with Python's list-iterator
semantics: the iterator keeps a numeric index into the LIVE list, so a
removal performed by a child's termination hook shifts later children into
the slot the iterator has already passed.  A child's `exit` first performs
`self.parent.send(('stopped', child))` — the parent is PAUSED at this
point, so the message lands in the parent's `_pending` buffer — and then
fires `child.d`, which runs the removal hook. -/
def ParentCell.stopChildrenFrom : Nat → Nat → ParentCell → Except PyErr ParentCell
  | 0, _, p => .ok p
  | fuel + 1, i, p =>
      if h : i < p.children.length then
        let child := p.children.get ⟨i, h⟩
        match Actor.stop child true with
        | .ok (chNew, _) =>
            let emitted := chNew.parentMsgs.drop child.parentMsgs.length
            let p₁ := { p with pending := p.pending ++ emitted }
            let p₂ :=
              if child.dCount < chNew.dCount then
                { p₁ with children := p₁.children.eraseIdx i }
              else
                { p₁ with children := p₁.children.set i chNew }
            ParentCell.stopChildrenFrom fuel (i + 1) p₂
        | .error e => .error e
      else .ok p

/-- `BaseActor.stop` (`_actor.py` lines 136-150) for the parent: reject
NOT_STARTED and STOPPED, pause if RUNNING, run the child-stop loop, move to
STOPPED, and unless silent or already reported, `exit(('stopped', self))`
to the grandparent. -/
def ParentCell.stop (p : ParentCell) (silent : Bool) : Except PyErr ParentCell :=
  if p.state = .notStarted then .error .plainException
  else if p.state = .stopped then .error .actorAlreadyStopped
  else do
    let p₁ ← if p.state = .running then ParentCell.pause p else .ok p
    let p₂ ← ParentCell.stopChildrenFrom (p₁.children.length + 1) 0 p₁
    let p₃ := { p₂ with state := .stopped }
    if silent = false ∧ p₃.dCount = 0 then
      .ok { p₃ with
            parentMsgs := p₃.parentMsgs ++ [stoppedMsg p₃.cid],
            dCount := p₃.dCount + 1 }
    else .ok p₃

/-- A spawned procedure child, RUNNING and suspended on an external
await, as in `actor_test.test_pausing_resuming_and_stopping_actor_with_children`. -/
def childSuspended (i : Nat) : Actor :=
  { state := .running, pending := [], inbox := [], waiting := none,
    onHold := true, cancelling := false, currentD := false,
    pausedResult := none, gen := some .exitsCleanly, cid := i,
    parentMsgs := [], dCount := 0, cancelCount := 0, warns := 0 }

/-- The concrete failing input of C7: a running parent with two spawned
procedure children, each suspended on an external awaitable. -/
def twoChildParent : ParentCell :=
  { state := .running, pending := [], children := [childSuspended 1, childSuspended 2],
    cid := 0, parentMsgs := [], dCount := 0 }

/-- C7 (code divergence): stopping a parent with two procedure children
stops and removes only the FIRST child; the parent still reaches STOPPED
and fires its own terminal signal, but the second child is left PAUSED —
never stopped, its terminal signal never fired — and it remains a member of
the parent's `_children` list.  (`Actor.stop` drops the `silent=True` flag
when calling the base `stop`, so the first child's termination fires its
terminal deferred, whose hook removes it from `_children` while the
`for child in self._children` loop of `BaseActor.stop` is iterating that
same list, shifting the second child into the already-visited slot.) -/
theorem claim_C7_parent_stop_skips_second_child :
    (ParentCell.stop twoChildParent false).map
        (fun q => (q.state, q.dCount,
                   q.children.map (fun ch => (ch.cid, ch.state, ch.dCount)))) =
      .ok (.stopped, 1, [(2, .paused, 0)]) := by
  rfl

/-- State of a `Process` mailbox (`spinoff/actor/process.py`), after
startup (`__pre_start_complete_d` already consumed): `queue` is `__queue`,
`getD` is the pattern of the outstanding `PickyDeferred` `__get_d` (if
any), `events` records the queue lengths logged via
`Events.log(HighWaterMarkReached(self.ref, l))`, and `delivered` records
the messages injected directly into a waiting get. -/
structure Process : Type where
  queue : List V
  getD : Option Pat
  events : List Nat
  delivered : List V

/-- The default high-water mark: `hwm = 10000` (`process.py` line 50). -/
def Process.hwm : Nat := 10000

/-- `Process.receive` (`process.py` lines 78-91): if a get is outstanding
and wants the message (`PickyDeferred.wants`, i.e. pattern equality),
inject it (the `__clear_get_d` callback clears `__get_d`); otherwise append
to the queue and, when the new length `l` satisfies `l and l % hwm == 0`,
log a `HighWaterMarkReached(ref, l)` event. -/
def Process.receive (hwm : Nat) (s : Process) (m : V) : Process :=
  match s.getD with
  | some pat =>
      if pmatches pat m then
        { s with getD := none, delivered := s.delivered ++ [m] }
      else
        let q := s.queue ++ [m]
        let l := q.length
        { s with queue := q,
                 events := if l ≠ 0 ∧ l % hwm = 0 then s.events ++ [l] else s.events }
  | none =>
      let q := s.queue ++ [m]
      let l := q.length
      { s with queue := q,
               events := if l ≠ 0 ∧ l % hwm = 0 then s.events ++ [l] else s.events }

/-- Python's `list.index(match)` scan: the index of the first element equal
to the pattern (pattern `__eq__` means "matches"), or `None` (a raised
`ValueError` in the source) when no element matches. -/
def pyIndex (pat : Pat) : List V → Option Nat
  | [] => none
  | m :: ms => if pmatches pat m then some 0 else (pyIndex pat ms).map (fun i => i + 1)

/-- `Process.get` (`process.py` lines 93-115), after startup: if the queue
holds a message equal to the pattern (`self.__queue.index(match)`, Python
`==`, i.e. the first matching message), pop and return it; otherwise
register a `PickyDeferred` for the pattern and return a pending handle. -/
def Process.get (s : Process) (pat : Pat) : Process × GetRes :=
  match pyIndex pat s.queue with
  | some ix =>
      ({ s with queue := s.queue.eraseIdx ix },
       .immediate (s.queue.getD ix .pynone))
  | none => ({ s with getD := some pat }, .pending)

/-- One mailbox operation of a run: an incoming `receive` or a `get`. -/
inductive POp : Type where
  | push : V → POp
  | pull : Pat → POp

/-- One step of a run. -/
def Process.step (hwm : Nat) (s : Process) : POp → Process
  | .push m => Process.receive hwm s m
  | .pull pat => (Process.get s pat).1

/-- Run a list of mailbox operations, tracking the maximum queue length
observed after each step (seeded with `acc`). -/
def Process.runMax (hwm : Nat) : Process → Nat → List POp → Process × Nat
  | s, acc, [] => (s, acc)
  | s, acc, op :: ops =>
      let s₁ := Process.step hwm s op
      Process.runMax hwm s₁ (max acc s₁.queue.length) ops

/-- The queue lengths at which `k` successive enqueues starting from length
`L` cross a (nonzero) multiple of `hwm`. -/
def hwmMarks (hwm : Nat) : Nat → Nat → List Nat
  | _, 0 => []
  | L, k + 1 =>
      (if L + 1 ≠ 0 ∧ (L + 1) % hwm = 0 then [L + 1] else []) ++
        hwmMarks hwm (L + 1) k

/-- The number of multiples of `hwm` crossed by `k` enqueues from length
`L` is `(L + k) / hwm - L / hwm`. -/
theorem hwmMarks_length (hwm : Nat) :
    ∀ (k L : Nat), (hwmMarks hwm L k).length = (L + k) / hwm - L / hwm := by
  intro k
  induction k with
  | zero => intro L; simp [hwmMarks]
  | succ k ih =>
      intro L
      have hdiv := Nat.succ_div L hwm
      have hmono : (L + 1) / hwm ≤ (L + 1 + k) / hwm :=
        Nat.div_le_div_right (by omega)
      have hmono2 : L / hwm ≤ (L + 1) / hwm :=
        Nat.div_le_div_right (by omega)
      have hmod : (hwm ∣ L + 1) ↔ ((L + 1) % hwm = 0) :=
        Nat.dvd_iff_mod_eq_zero
      simp only [hwmMarks, List.length_append, ih (L + 1)]
      rw [show L + (k + 1) = L + 1 + k by omega]
      by_cases hc : (L + 1) % hwm = 0
      · rw [if_pos ⟨by omega, hc⟩]
        rw [if_pos (hmod.mpr hc)] at hdiv
        simp only [List.length_singleton]
        omega
      · rw [if_neg (by simp [hc])]
        rw [if_neg (fun hd => hc (hmod.mp hd))] at hdiv
        simp only [List.length_nil]
        omega

/-- Running `k` enqueues (with no outstanding get) appends `k` copies to
the queue, logs exactly the high-water marks crossed, and raises the
running maximum to the final length. -/
theorem Process.runMax_pushes (hwm : Nat) (v : V) (ops : List POp) :
    ∀ (k : Nat) (s : Process) (acc : Nat), s.getD = none →
      s.queue.length ≤ acc →
      Process.runMax hwm s acc (List.replicate k (POp.push v) ++ ops) =
        Process.runMax hwm
          { s with queue := s.queue ++ List.replicate k v,
                   events := s.events ++ hwmMarks hwm s.queue.length k }
          (max acc (s.queue.length + k)) ops := by
  intro k
  induction k with
  | zero =>
      intro s acc hg hacc
      have hmax : max acc s.queue.length = acc := by omega
      simp [hwmMarks, hmax]
  | succ k ih =>
      intro s acc hg hacc
      rw [List.replicate_succ, List.cons_append]
      simp only [Process.runMax, Process.step, Process.receive, hg,
        List.length_append, List.length_singleton]
      rw [ih { queue := s.queue ++ [v], getD := none,
               events := if s.queue.length + 1 ≠ 0 ∧ (s.queue.length + 1) % hwm = 0
                 then s.events ++ [s.queue.length + 1] else s.events,
               delivered := s.delivered }
          (max acc (s.queue.length + 1)) rfl (by simp)]
      dsimp only
      simp only [List.length_append, List.length_singleton]
      have hq : (s.queue ++ [v]) ++ List.replicate k v =
          s.queue ++ List.replicate (k + 1) v := by
        rw [List.replicate_succ, List.append_assoc]
        rfl
      have hev : (if s.queue.length + 1 ≠ 0 ∧ (s.queue.length + 1) % hwm = 0
            then s.events ++ [s.queue.length + 1] else s.events) ++
            hwmMarks hwm (s.queue.length + 1) k =
          s.events ++ hwmMarks hwm s.queue.length (k + 1) := by
        simp only [hwmMarks]
        by_cases hc : (s.queue.length + 1) % hwm = 0
        · rw [if_pos ⟨by omega, hc⟩, if_pos ⟨by omega, hc⟩]
          simp
        · rw [if_neg (by simp [hc]), if_neg (by simp [hc])]
          simp
      have hmax : max (max acc (s.queue.length + 1))
          (s.queue.length + 1 + k) = max acc (s.queue.length + (k + 1)) := by
        omega
      rw [hq, hev, hmax]

/-- A dequeue of the head (an unfiltered `get` on a non-empty queue)
followed by one enqueue: the queue length returns to `n + 1`, so the
enqueue logs another event whenever `n + 1` is a multiple of the
high-water mark. -/
theorem Process.runMax_pull_push (hwm : Nat) (n : Nat) (v : V) (es : List Nat)
    (ds : List V) (acc : Nat) :
    Process.runMax hwm
      { queue := List.replicate (n + 1) v, getD := none, events := es,
        delivered := ds } acc [POp.pull .any, POp.push v] =
      ({ queue := List.replicate n v ++ [v], getD := none,
         events := if n + 1 ≠ 0 ∧ (n + 1) % hwm = 0 then es ++ [n + 1] else es,
         delivered := ds },
       max (max acc n) (n + 1)) := by
  simp [Process.runMax, Process.step, Process.get, Process.receive,
    List.replicate_succ, pyIndex, pmatches, pmatch, List.eraseIdx]

/-- The concrete run refuting C9's count formula: 10000 enqueues (reaching
the high-water mark once), one dequeue, and one more enqueue. -/
def hwmRun : Process × Nat :=
  Process.runMax Process.hwm
    { queue := [], getD := none, events := [], delivered := [] } 0
    (List.replicate 10000 (POp.push (.n 0)) ++ [POp.pull .any, POp.push (.n 0)])

/-- C9 counterexample: on the run of `hwmRun`, with the default high-water
mark of 10000, TWO `HighWaterMarkReached` events are logged although the
maximum queue length over the run is 10000, so the event count is not
`floor(max_queue_len / HWM) = 1`: draining below a multiple and crossing it
again re-logs it. -/
theorem claim_C9_hwm_count_counterexample :
    hwmRun.1.events.length = 2 ∧ hwmRun.2 = 10000 ∧
    hwmRun.1.events.length ≠ hwmRun.2 / Process.hwm := by
  have h : hwmRun.1.events.length = 2 ∧ hwmRun.2 = 10000 := by
    rw [hwmRun,
      Process.runMax_pushes Process.hwm (.n 0) [POp.pull .any, POp.push (.n 0)]
        10000 { queue := [], getD := none, events := [], delivered := [] } 0 rfl
        (by simp)]
    dsimp only
    rw [show (10000 : Nat) = 9999 + 1 from rfl]
    rw [show ([] : List V) ++ List.replicate (9999 + 1) (V.n 0) =
      List.replicate (9999 + 1) (V.n 0) from List.nil_append _]
    rw [Process.runMax_pull_push]
    refine ⟨?_, ?_⟩
    · rw [if_pos (show 9999 + 1 ≠ 0 ∧ (9999 + 1) % Process.hwm = 0 from
        ⟨by omega, by norm_num [Process.hwm]⟩)]
      rw [List.length_append, List.length_append, hwmMarks_length]
      norm_num [Process.hwm]
    · dsimp only
      simp only [List.length_nil]
      omega
  exact ⟨h.1, h.2, by rw [h.1, h.2]; norm_num [Process.hwm]⟩

/-- C9 amended: an event is logged exactly when an ENQUEUE makes the queue
length a (necessarily nonzero) multiple of the high-water mark — a message
injected into a waiting get bypasses the queue and logs nothing — and over
a run consisting only of enqueues the event count equals
`floor(max_queue_len / HWM)` with the default HWM of 10000.  (With
dequeues interleaved the count can exceed that quotient, as the
counterexample shows.) -/
theorem claim_C9_hwm_events_amended (s t : Process) (m : V) (pat : Pat) (n : Nat)
    (v : V) (hg : s.getD = none) (ht : t.getD = some pat)
    (hw : pmatches pat m = true) :
    (Process.receive Process.hwm s m).events.length =
      s.events.length +
        (if (s.queue.length + 1) % Process.hwm = 0 then 1 else 0) ∧
    Process.receive Process.hwm t m =
      { t with getD := none, delivered := t.delivered ++ [m] } ∧
    (Process.runMax Process.hwm
        { queue := [], getD := none, events := [], delivered := [] } 0
        (List.replicate n (POp.push v))).1.events.length =
      (Process.runMax Process.hwm
        { queue := [], getD := none, events := [], delivered := [] } 0
        (List.replicate n (POp.push v))).2 / Process.hwm := by
  refine ⟨?_, ?_, ?_⟩
  · simp only [Process.receive, hg]
    by_cases hc : (s.queue.length + 1) % Process.hwm = 0
    · rw [if_pos ⟨by simp, by simpa using hc⟩]
      simp [hc]
    · rw [if_neg (by simpa using hc)]
      simp [hc]
  · simp [Process.receive, ht, hw]
  · rw [show List.replicate n (POp.push v) =
      List.replicate n (POp.push v) ++ [] from (List.append_nil _).symm]
    rw [Process.runMax_pushes Process.hwm v []
      n { queue := [], getD := none, events := [], delivered := [] } 0 rfl
      (by simp)]
    simp [Process.runMax, hwmMarks_length]

/-- Witness for the amended C9: a concrete enqueue on a one-message queue,
a waiting get absorbing a message without logging, and a monotone run of
three enqueues. -/
theorem claim_C9_hwm_events_amended_witness :
    (Process.receive Process.hwm
      { queue := [.n 1], getD := none, events := [],
        delivered := [] } (.n 2)).events.length =
      ([] : List Nat).length +
        (if (([V.n 1]).length + 1) % Process.hwm = 0 then 1 else 0) ∧
    Process.receive Process.hwm
      { queue := [], getD := some .any, events := [], delivered := [] } (.n 2) =
      { queue := [], getD := none, events := [], delivered := [] ++ [.n 2] } ∧
    (Process.runMax Process.hwm
        { queue := [], getD := none, events := [], delivered := [] } 0
        (List.replicate 3 (POp.push (.n 3)))).1.events.length =
      (Process.runMax Process.hwm
        { queue := [], getD := none, events := [], delivered := [] } 0
        (List.replicate 3 (POp.push (.n 3)))).2 / Process.hwm :=
  claim_C9_hwm_events_amended
    { queue := [.n 1], getD := none, events := [], delivered := [] }
    { queue := [], getD := some .any, events := [], delivered := [] }
    (.n 2) .any 3 (.n 3) rfl rfl rfl

end Spinoff
